import Mathlib

/-!
Verification of the Delhi High Court case scraper (court_scraper.py, app.py).

The Python sources are shallowly embedded: every pure parsing helper becomes
a Lean function over `String`/`List Char`, and the stateful retrieval
pipeline becomes a function from an explicit environment (the outcomes of
the browser-facing collaborators) to a trace recording the returned value,
the persisted records, the progress callbacks and the cleanup behaviour.
-/

set_option maxHeartbeats 1000000
set_option linter.unnecessarySeqFocus false

/-! ## Python string primitives used by the scraper -/

/-- Whitespace test backing Python's str.strip(); the scraper only ever
strips ASCII whitespace, so the ASCII set suffices. -/
def pyIsSpace (c : Char) : Bool :=
  c = ' ' || c = '\t' || c = '\n' || c = '\r' || c = '\x0b' || c = '\x0c'

/-- Python str.strip() on a character list: drop whitespace from both ends. -/
def pyStripL (l : List Char) : List Char :=
  ((l.dropWhile pyIsSpace).reverse.dropWhile pyIsSpace).reverse

/-- Python str.strip() on strings. -/
def pyStrip (s : String) : String :=
  String.mk (pyStripL s.toList)

/-- Python substring test `w in l` on character lists (scan every start
position for a prefix match). -/
def containsL (w : List Char) : List Char → Bool
  | [] => w.isEmpty
  | x :: xs => w.isPrefixOf (x :: xs) || containsL w xs

/-- Python `needle in haystack` on strings. -/
def pyContains (haystack needle : String) : Bool :=
  containsL needle.toList haystack.toList

/-- Python str.startswith on strings. -/
def pyStartsWith (s pre : String) : Bool :=
  pre.toList.isPrefixOf s.toList

/-- Python str.lower() restricted to ASCII, which covers every keyword the
scraper lowercases. -/
def pyLower (s : String) : String :=
  String.mk (s.toList.map Char.toLower)

/-- Python str.isdigit(): non-empty and all digits (ASCII model; Python also
accepts some Unicode digits, which the claims do not exercise). -/
def pyIsDigit (s : String) : Bool :=
  !s.toList.isEmpty && s.toList.all Char.isDigit

/-- One step of Python str.split(sep): fuel-indexed scan so that the
definition is structural and kernel-reducible.  `acc` is the current
segment reversed.  The fuel is always instantiated with the length of the
scanned list, which suffices because every step consumes at least one
character (the scraper never splits on an empty separator, which Python
rejects outright). -/
def pySplitGo (sep : List Char) : Nat → List Char → List Char → List (List Char)
  | _, acc, [] => [acc.reverse]
  | 0, acc, l => [acc.reverse ++ l]
  | fuel + 1, acc, x :: xs =>
    if sep.isPrefixOf (x :: xs) then
      acc.reverse :: pySplitGo sep fuel [] ((x :: xs).drop sep.length)
    else
      pySplitGo sep fuel (x :: acc) xs

/-- Python str.split(sep) on character lists. -/
def pySplitL (sep l : List Char) : List (List Char) :=
  pySplitGo sep l.length [] l

/-- Python t.split(sep)[0]: the segment before the first occurrence. -/
def firstSeg (sep l : List Char) : List Char :=
  (pySplitL sep l).headD l

/-- Python t.split(sep)[-1]: the segment after the last occurrence. -/
def lastSeg (sep l : List Char) : List Char :=
  (pySplitL sep l).getLastD l

/-! ## DataExtractor._extract_status (court_scraper.py lines 544-556) -/

/-- Leftmost match of the regex `\[([^\]]+)\]` used by _extract_status:
scan for the first '[' that is followed by at least one non-']' character
and then a ']'; return the (non-empty) group between the brackets. -/
def firstBracketMatch : List Char → Option (List Char)
  | [] => none
  | c :: rest =>
    if c = '[' then
      let content := rest.takeWhile (fun x => x ≠ ']')
      if content.length ≠ 0 ∧ content.length < rest.length then some content
      else firstBracketMatch rest
    else firstBracketMatch rest

/-- DataExtractor._extract_status: special-cased bracket labels first, then
the first bracketed group (stripped), else "ACTIVE". -/
def extract_status (case_text : String) : String :=
  let l := case_text.toList
  if containsL "[DISPOSED]".toList l then "DISPOSED"
  else if containsL "[CLOSED]".toList l then "CLOSED"
  else if containsL "[PENDING]".toList l then "PENDING"
  else if containsL "[".toList l && containsL "]".toList l then
    match firstBracketMatch l with
    | some c => String.mk (pyStripL c)
    | none => "ACTIVE"
  else "ACTIVE"

/-! ## DataExtractor._extract_court_details (court_scraper.py lines 558-582) -/

/-- DataExtractor._extract_court_details: derive (next_date, last_date,
court_no) from the court-info cell text by Python string splits.  Each
field starts with its placeholder and is overwritten when its marker (the
upper-case variant checked first, then the mixed-case one, mirroring the
if/elif chains) occurs in the text. -/
def extract_court_details (court_text : String) : String × String × String :=
  let t := court_text.toList
  let next_date :=
    if containsL "NEXT DATE:".toList t then
      pyStripL (firstSeg "Last Date:".toList (lastSeg "NEXT DATE:".toList t))
    else if containsL "Next Date:".toList t then
      pyStripL (firstSeg "Last Date:".toList (lastSeg "Next Date:".toList t))
    else "Not Scheduled".toList
  let last_date :=
    if containsL "Last Date:".toList t then
      pyStripL (firstSeg "COURT NO:".toList (lastSeg "Last Date:".toList t))
    else if containsL "LAST DATE:".toList t then
      pyStripL (firstSeg "COURT NO:".toList (lastSeg "LAST DATE:".toList t))
    else "Not Available".toList
  let court_no :=
    if containsL "COURT NO:".toList t then
      pyStripL (lastSeg "COURT NO:".toList t)
    else if containsL "Court No:".toList t then
      pyStripL (lastSeg "Court No:".toList t)
    else "Not Assigned".toList
  (String.mk next_date, String.mk last_date, String.mk court_no)

/-! ## HTML data model for the extractor

BeautifulSoup values are modelled structurally: a cell carries its
(strip-extracted) text and its anchors; an anchor carries an optional href
attribute and its (strip-extracted) text. -/

/-- An anchor element: optional href attribute plus get_text(strip=True). -/
structure Anchor where
  href : Option String
  text : String
deriving DecidableEq, Repr

/-- A table cell: get_text(strip=True) plus the anchors it contains. -/
structure Cell where
  text : String
  anchors : List Anchor
deriving DecidableEq, Repr

/-- An order/document record as produced by _parse_order_row. -/
structure OrderRec where
  order_index : Nat
  date : String
  case_info : String
  pdf_link : Option String
deriving DecidableEq, Repr

/-- The orders page as seen by extract_orders_data: the candidate table, if
one of the candidate identifiers matched. -/
structure OrdersTable where
  tbody : Option (List (List Cell))
  allRows : List (List Cell)
deriving DecidableEq, Repr

/-- Parsed orders page content. -/
structure OrdersPage where
  table : Option OrdersTable
deriving DecidableEq, Repr

/-- CourtScraper.BASE_URL. -/
def BASE_URL : String := "https://delhihighcourt.nic.in/"

/-- BeautifulSoup cell.find('a', href=True): first anchor that has an href
attribute. -/
def findAnchorWithHref (c : Cell) : Option Anchor :=
  c.anchors.find? (fun a => a.href.isSome)

/-! ## DataExtractor._extract_orders_link (court_scraper.py lines 584-604)

urllib.parse.urljoin is an external library routine; it is threaded through
as an explicit `join : String → String → String` parameter rather than
re-modelled. -/

/-- Loop body of _extract_orders_link: scan the anchors that carry an href
(find_all('a', href=True)); return the first href containing one of the
keywords "order", "status", "detail" in its lowercase form, made absolute
with `join` unless it already starts with "http". -/
def orderLinkLoop (join : String → String → String) : List Anchor → Option String
  | [] => none
  | a :: rest =>
    match a.href with
    | none => orderLinkLoop join rest
    | some href =>
      if containsL "order".toList (pyLower href).toList
          || containsL "status".toList (pyLower href).toList
          || containsL "detail".toList (pyLower href).toList then
        if pyStartsWith href "http" then some href
        else some (join BASE_URL href)
      else orderLinkLoop join rest

/-- DataExtractor._extract_orders_link: None for a missing cell, else the
first keyword-matching href of the cell, resolved against BASE_URL. -/
def extract_orders_link (join : String → String → String)
    (cell : Option Cell) : Option String :=
  match cell with
  | none => none
  | some c => orderLinkLoop join c.anchors

/-! ## DataExtractor._parse_order_row (court_scraper.py lines 645-674) -/

/-- Shared tail of _parse_order_row once the link cell and the date text are
chosen: extract the first anchor with an href; absent anchor yields link
None and description "Not Available"; a non-empty relative href is joined
against BASE_URL, while an absolute or empty href passes through. -/
def mkOrderRec (join : String → String → String) (cell : Cell)
    (order_date : String) (index : Nat) : OrderRec :=
  match findAnchorWithHref cell with
  | none =>
    { order_index := index + 1, date := order_date
      case_info := "Not Available", pdf_link := none }
  | some a =>
    let h := a.href.getD ""
    let h := if h ≠ "" ∧ ¬ pyStartsWith h "http" then join BASE_URL h else h
    { order_index := index + 1, date := order_date
      case_info := a.text, pdf_link := some h }

/-- DataExtractor._parse_order_row: cells[1] (falling back to cells[0]) is
the link cell, cells[2] the date; an empty row raises IndexError inside the
function's own try block, which returns None. -/
def parse_order_row (join : String → String → String)
    (cells : List Cell) (index : Nat) : Option OrderRec :=
  match cells with
  | [] => none
  | [c0] => some (mkOrderRec join c0 "Date not available" index)
  | [_, c1] => some (mkOrderRec join c1 "Date not available" index)
  | _ :: c1 :: c2 :: _ => some (mkOrderRec join c1 c2.text index)

/-! ## DataExtractor.extract_orders_data (court_scraper.py lines 606-643) -/

/-- Row selection shared by both extractors: tbody rows when a tbody
exists, else all rows minus the header row. -/
def tableRows (t : OrdersTable) : List (List Cell) :=
  match t.tbody with
  | some rows => rows
  | none => t.allRows.drop 1

/-- The enumerate loop of extract_orders_data: rows with fewer than two
cells are skipped, parsed rows are appended, and the enumerate index `i`
advances over every row, skipped or not. -/
def ordersGo (join : String → String → String) (i : Nat) :
    List (List Cell) → List OrderRec
  | [] => []
  | cells :: rest =>
    if 2 ≤ cells.length then
      match parse_order_row join cells i with
      | some od => od :: ordersGo join (i + 1) rest
      | none => ordersGo join (i + 1) rest
    else ordersGo join (i + 1) rest

/-- DataExtractor.extract_orders_data: a failed page navigation
(`fetchOk = false`, the driver.get call raising inside the outer try) or a
missing orders table yields the empty list; otherwise each body row is
parsed independently. -/
def extract_orders_data (join : String → String → String)
    (fetchOk : Bool) (page : OrdersPage) : List OrderRec :=
  if fetchOk = false then []
  else
    match page.table with
    | none => []
    | some t => ordersGo join 0 (tableRows t)

/-! ## CourtScraper state and _cleanup (court_scraper.py lines 676-687, 805-817) -/

/-- The browser driver held by the scraper; `quitFails` records whether its
quit() call would raise. -/
structure DriverH where
  quitFails : Bool
deriving DecidableEq, Repr

/-- The mutable attributes of a CourtScraper instance: the driver and the
two helper objects (modelled as presence flags). -/
structure ScraperState where
  driver : Option DriverH
  form_handler : Bool
  data_extractor : Bool
deriving DecidableEq, Repr

/-- CourtScraper._cleanup: when a driver is held, try driver.quit() —
swallowing any exception it raises — and in all cases reset every
reference; when no driver is held, do nothing.  The returned Bool records
whether quit() was invoked. -/
def cleanup (s : ScraperState) : ScraperState × Bool :=
  match s.driver with
  | none => (s, false)
  | some d =>
    if d.quitFails then
      -- driver.quit() raised: the except block logs, the finally block
      -- still resets every reference
      (⟨none, false, false⟩, true)
    else
      (⟨none, false, false⟩, true)

/-! ## Pipeline data model -/

/-- The case dictionary produced by DataExtractor._parse_case_row, plus the
'orders' key that search_case_details may attach afterwards. -/
structure CaseData where
  case_number : String
  case_type : String
  filing_year : String
  status : String
  parties : String
  next_date : String
  last_date : String
  court_no : String
  orders_link : Option String
  orders : Option (List OrderRec)
deriving DecidableEq, Repr

/-- One DatabaseManager.save_search_record call: a success record carrying
the case dictionary, or a failure record carrying the minimal dictionary
and the error message. -/
inductive SaveRec where
  | success (data : CaseData)
  | failure (case_number : String) (case_type : String) (filing_year : Nat)
      (msg : String)
deriving DecidableEq, Repr

/-- The environment of one search_case_details invocation: the outcomes of
every browser-facing collaborator call, in pipeline order.  `setupErr` and
`navErr` are the exception messages of _setup_browser and driver.get when
they raise; the Bools are the returns of the FormHandler steps;
`extractResult` is the return of extract_case_data and `ordersResult` that
of extract_orders_data; `quitFails` configures the driver that
_setup_browser would create. -/
structure ScrapeEnv where
  setupErr : Option String
  navErr : Option String
  fillCaseTypeOk : Bool
  fillCaseNumberOk : Bool
  fillFilingYearOk : Bool
  captchaOk : Bool
  submitOk : Bool
  extractResult : Option CaseData
  ordersResult : List OrderRec
  quitFails : Bool
deriving Repr

/-- Which pipeline stages were attempted during one invocation. -/
structure StageTrace where
  setup : Bool
  nav : Bool
  fill : Bool
  captcha : Bool
  submit : Bool
  extract : Bool
  ordersFetch : Bool
deriving DecidableEq, Repr

/-- The observable trace of one search_case_details invocation: the Python
return (`.ok (some d)`), the "no case found" None return (`.ok none`) or
the raised exception message (`.error msg`); the save_search_record calls;
the progress callback invocations; the number of _cleanup calls; the
scraper state after the finally block; and the attempted stages. -/
structure RunResult where
  result : Except String (Option CaseData)
  saved : List SaveRec
  progress : List (String × Nat)
  cleanupCalls : Nat
  finalState : ScraperState
  stages : StageTrace
deriving Repr

/-- Python's `str(e) or "Unknown error occurred during search"`. -/
def pyExcMsg (s : String) : String :=
  if s = "" then "Unknown error occurred during search" else s

/-- Python truthiness of `case_data.get('orders_link')`: None and the empty
string are falsy. -/
def optTruthy : Option String → Bool
  | none => false
  | some s => s ≠ ""

/-- The composed case number f-string `"{case_type} {case_number}/{filing_year}"`. -/
def composedCaseNumber (case_type case_number : String) (filing_year : Nat) : String :=
  case_type ++ " " ++ case_number ++ "/" ++ toString filing_year

/-- An `if progress_callback: progress_callback(msg, pct)` site: when a
callback is present its (discarded) value is forced and the invocation is
recorded; when absent nothing happens.  The callback's result type is a
parameter because Python ignores the returned value entirely. -/
def emit {α : Type} (cb : Option (String → Nat → α)) (msg : String) (pct : Nat) :
    List (String × Nat) :=
  match cb with
  | none => []
  | some f =>
    let _ := f msg pct
    [(msg, pct)]

/-! ## CourtScraper._fill_search_form (court_scraper.py lines 780-803) -/

/-- CourtScraper._fill_search_form: the three FormHandler calls in order,
stopping at the first failure. -/
def fill_search_form (env : ScrapeEnv) : Bool :=
  if env.fillCaseTypeOk = false then false
  else if env.fillCaseNumberOk = false then false
  else if env.fillFilingYearOk = false then false
  else true

/-! ## CourtScraper.search_case_details (court_scraper.py lines 689-767) -/

/-- CourtScraper.search_case_details as a trace transformer.  Every exit
path runs _cleanup exactly once (the finally block); the except block
persists a failure record and re-raises; the success path persists the
(orders-augmented) case dictionary; the "no case found" path returns None
from inside the try block. -/
def search_case_details {α : Type} (case_type case_number : String)
    (filing_year : Nat) (env : ScrapeEnv)
    (cb : Option (String → Nat → α)) : RunResult :=
  let failData := composedCaseNumber case_type case_number filing_year
  let p1 := emit cb "Initializing browser session" 10
  match env.setupErr with
  | some e =>
    -- _setup_browser logged and re-raised; driver was never assigned
    let msg := pyExcMsg e
    { result := .error msg
      saved := [.failure failData case_type filing_year msg]
      progress := p1
      cleanupCalls := 1
      finalState := (cleanup ⟨none, false, false⟩).1
      stages := ⟨true, false, false, false, false, false, false⟩ }
  | none =>
    let st : ScraperState := ⟨some ⟨env.quitFails⟩, true, true⟩
    let p2 := p1 ++ emit cb "Loading court website" 25
    match env.navErr with
    | some e =>
      let msg := pyExcMsg e
      { result := .error msg
        saved := [.failure failData case_type filing_year msg]
        progress := p2
        cleanupCalls := 1
        finalState := (cleanup st).1
        stages := ⟨true, true, false, false, false, false, false⟩ }
    | none =>
      let p3 := p2 ++ emit cb "Filling case search form" 40
      if fill_search_form env then
        let p4 := p3 ++ emit cb "Processing security verification" 60
        if env.captchaOk then
          let p5 := p4 ++ emit cb "Submitting search request" 70
          if env.submitOk then
            let p6 := p5 ++ emit cb "Extracting case information" 85
            match env.extractResult with
            | none =>
              -- error_message is assigned but `return None` leaves the try
              -- block without reaching the except block: nothing persisted
              { result := .ok none
                saved := []
                progress := p6
                cleanupCalls := 1
                finalState := (cleanup st).1
                stages := ⟨true, true, true, true, true, true, false⟩ }
            | some cd =>
              if optTruthy cd.orders_link then
                let p7 := p6 ++ emit cb "Retrieving order documents" 95
                let cd1 := { cd with orders := some env.ordersResult }
                let p8 := p7 ++ emit cb "Search completed successfully" 100
                { result := .ok (some cd1)
                  saved := [.success cd1]
                  progress := p8
                  cleanupCalls := 1
                  finalState := (cleanup st).1
                  stages := ⟨true, true, true, true, true, true, true⟩ }
              else
                let p8 := p6 ++ emit cb "Search completed successfully" 100
                { result := .ok (some cd)
                  saved := [.success cd]
                  progress := p8
                  cleanupCalls := 1
                  finalState := (cleanup st).1
                  stages := ⟨true, true, true, true, true, true, false⟩ }
          else
            let msg := pyExcMsg "Search submission failed"
            { result := .error msg
              saved := [.failure failData case_type filing_year msg]
              progress := p5
              cleanupCalls := 1
              finalState := (cleanup st).1
              stages := ⟨true, true, true, true, true, false, false⟩ }
        else
          let msg := pyExcMsg "Security verification failed - please try again"
          { result := .error msg
            saved := [.failure failData case_type filing_year msg]
            progress := p4
            cleanupCalls := 1
            finalState := (cleanup st).1
            stages := ⟨true, true, true, true, false, false, false⟩ }
      else
        let msg := pyExcMsg "Unable to fill search form"
        { result := .error msg
          saved := [.failure failData case_type filing_year msg]
          progress := p3
          cleanupCalls := 1
          finalState := (cleanup st).1
          stages := ⟨true, true, true, false, false, false, false⟩ }

/-! ## app.py: perform_case_search (lines 217-281) and the search form
submission handler inside render_search_tab (lines 204-215) -/

/-- The guidance tip app.py shows under a failed search, keyed on the
surfaced error message. -/
inductive Guidance where
  | securityRetry
  | verifyInputs
  | connection
  | generic
deriving DecidableEq, Repr

/-- The elif chain at the end of perform_case_search. -/
def errorGuidance (msg : String) : Guidance :=
  if pyContains msg "Security verification failed" then .securityRetry
  else if pyContains msg "No case found" then .verifyInputs
  else if pyContains (pyLower msg) "internet connection" then .connection
  else .generic

/-- What perform_case_search displays to the user. -/
inductive DisplayOutcome where
  | found (cd : CaseData)
  | noCaseFound
  | searchFailed (msg : String) (g : Guidance)
deriving DecidableEq, Repr

/-- The trace of one perform_case_search call. -/
structure AppRun where
  display : DisplayOutcome
  saved : List SaveRec
  scrapersCreated : Nat
deriving Repr

/-- app.perform_case_search: create a scraper, run the pipeline with the
update_progress callback, and render the three-way outcome. -/
def perform_case_search (case_type case_number : String) (filing_year : Nat)
    (env : ScrapeEnv) : AppRun :=
  let r := search_case_details case_type case_number filing_year env
    (some (fun (_ : String) (_ : Nat) => ()))
  { display :=
      match r.result with
      | .ok (some cd) => .found cd
      | .ok none => .noCaseFound
      | .error msg => .searchFailed msg (errorGuidance msg)
    saved := r.saved
    scrapersCreated := 1 }

/-- The trace of one form submission in render_search_tab: the validation
error shown (if any) plus everything the search, if started, did. -/
structure SubmitResult where
  rejectedMsg : Option String
  saved : List SaveRec
  scrapersCreated : Nat
  display : Option DisplayOutcome
deriving Repr

/-- The submit handler of app.render_search_tab: reject a blank or
non-numeric case number before any scraper exists, else run
perform_case_search on the stripped case number. -/
def render_search_tab_submit (case_type case_number : String)
    (filing_year : Nat) (env : ScrapeEnv) : SubmitResult :=
  if pyStrip case_number = "" then
    { rejectedMsg := some "Please enter a case number"
      saved := [], scrapersCreated := 0, display := none }
  else if pyIsDigit case_number = false then
    { rejectedMsg := some "Case number should contain only digits"
      saved := [], scrapersCreated := 0, display := none }
  else
    let r := perform_case_search case_type (pyStrip case_number) filing_year env
    { rejectedMsg := none
      saved := r.saved
      scrapersCreated := r.scrapersCreated
      display := some r.display }

/-! ## Helper lemmas about the string primitives -/

/-- Alias for the Boolean-to-propositional bridge of List.isPrefixOf. -/
theorem prefixOf_iff {w l : List Char} : w.isPrefixOf l = true ↔ w <+: l :=
  List.isPrefixOf_iff_prefix

/-- Alias for the cons characterization of list containment. -/
theorem infixCons {w : List Char} {a : Char} {l : List Char} :
    w <:+: a :: l ↔ w <+: a :: l ∨ w <:+: l :=
  List.infix_cons_iff

/-- containsL decides substring containment. -/
theorem containsL_iff (w : List Char) : ∀ l : List Char,
    containsL w l = true ↔ w <:+: l := by
  intro l
  induction l with
  | nil =>
    simp only [containsL, List.isEmpty_iff, List.infix_nil]
  | cons x xs ih =>
    simp only [containsL, Bool.or_eq_true, prefixOf_iff, ih, infixCons]

/-- A string containing a character that the haystack lacks is never a
substring of it. -/
theorem containsL_eq_false_of_mem {x : Char} {w : List Char} (hxw : x ∈ w) :
    ∀ {l : List Char}, x ∉ l → containsL w l = false := by
  intro l
  induction l with
  | nil =>
    intro _
    cases w with
    | nil => cases hxw
    | cons a as => rfl
  | cons y ys ih =>
    intro hxl
    have h1 : w.isPrefixOf (y :: ys) = false := by
      by_contra h
      have h2 : w <+: y :: ys := prefixOf_iff.mp (by simpa using h)
      exact hxl (h2.subset hxw)
    have h3 : containsL w ys = false :=
      ih (fun hm => hxl (List.mem_cons_of_mem y hm))
    simp [containsL, h1, h3]

/-- A pattern that opens with '[' and contains ']' occurs nowhere in a text
whose left part has no '[' and whose right part has no ']'. -/
theorem containsL_bracket_split {w : List Char} (hw : w.head? = some '[')
    (hwc : ']' ∈ w) : ∀ {u v : List Char}, '[' ∉ u → ']' ∉ v →
    containsL w (u ++ v) = false := by
  intro u
  induction u with
  | nil =>
    intro v _ hv
    simpa using containsL_eq_false_of_mem hwc hv
  | cons a u2 ih =>
    intro v hu hv
    have ha : a ≠ '[' := fun h => hu (h ▸ List.mem_cons_self a u2)
    have h1 : w.isPrefixOf (a :: (u2 ++ v)) = false := by
      by_contra h
      have h2 : w <+: a :: (u2 ++ v) := prefixOf_iff.mp (by simpa using h)
      cases w with
      | nil => simp at hw
      | cons c w2 =>
        have hc : c = '[' := by simpa using hw
        have hca : c = a := (List.cons_prefix_cons.mp h2).1
        exact ha (hca ▸ hc)
    have h3 : containsL w (u2 ++ v) =
        false := ih (fun hm => hu (List.mem_cons_of_mem a hm)) hv
    simp [containsL, h1, h3]

/-- takeWhile over an append whose left part satisfies the predicate and
whose junction element does not. -/
theorem takeWhile_append_eq {α : Type} {p : α → Bool} {y : α} (hy : p y = false) :
    ∀ {c : List α}, (∀ x ∈ c, p x = true) →
    ∀ v : List α, (c ++ y :: v).takeWhile p = c := by
  intro c
  induction c with
  | nil =>
    intro _ v
    simp [List.takeWhile_cons, hy]
  | cons a c2 ih =>
    intro hc v
    have ha := hc a (List.mem_cons_self a c2)
    simp [List.takeWhile_cons, ha,
      ih (fun x hx => hc x (List.mem_cons_of_mem a hx)) v]

/-! ## Helper lemmas about firstBracketMatch -/

/-- Without any closing bracket the regex cannot match. -/
theorem firstBracketMatch_of_no_close : ∀ {l : List Char}, ']' ∉ l →
    firstBracketMatch l = none := by
  intro l
  induction l with
  | nil => intro _; rfl
  | cons c rest ih =>
    intro h
    have hrest : ']' ∉ rest := fun hm => h (List.mem_cons_of_mem c hm)
    by_cases hc : c = '['
    · have hcontent : rest.takeWhile (fun x => x ≠ ']') = rest :=
        List.takeWhile_eq_self_iff.mpr (fun x hx => by
          simp only [ne_eq, decide_eq_true_eq]
          exact fun hxe => hrest (hxe ▸ hx))
      have hcond : ¬ ((rest.takeWhile (fun x => x ≠ ']')).length ≠ 0 ∧
          (rest.takeWhile (fun x => x ≠ ']')).length < rest.length) := by
        rw [hcontent]
        intro hcontra
        exact Nat.lt_irrefl _ hcontra.2
      simp only [firstBracketMatch, if_pos hc, if_neg hcond]
      exact ih hrest
    · simp only [firstBracketMatch, if_neg hc]
      exact ih hrest

/-- Scanning may skip any '['-free left part. -/
theorem firstBracketMatch_append : ∀ {u : List Char}, '[' ∉ u →
    ∀ v : List Char, firstBracketMatch (u ++ v) = firstBracketMatch v := by
  intro u
  induction u with
  | nil => intro _ v; rfl
  | cons a u2 ih =>
    intro hu v
    have ha : ¬ (a = '[') := fun h => hu (h ▸ List.mem_cons_self a u2)
    have h2 := ih (fun hm => hu (List.mem_cons_of_mem a hm)) v
    simp [firstBracketMatch, ha, h2]

/-- The regex finds exactly the first complete non-empty bracket group. -/
theorem firstBracketMatch_decomp {u c v : List Char} (hu : '[' ∉ u)
    (hc : c ≠ []) (hcc : ']' ∉ c) :
    firstBracketMatch (u ++ '[' :: (c ++ ']' :: v)) = some c := by
  rw [firstBracketMatch_append hu]
  have hcontent : (c ++ ']' :: v).takeWhile (fun x => x ≠ ']') = c := by
    apply takeWhile_append_eq
    · simp
    · intro x hx
      simp only [ne_eq, decide_eq_true_eq]
      exact fun hxe => hcc (hxe ▸ hx)
  have h1 : c.length ≠ 0 := fun h => hc (List.eq_nil_of_length_eq_zero h)
  have h2 : c.length < (c ++ ']' :: v).length := by
    rw [List.length_append]
    simp
  have hcond : ((c ++ ']' :: v).takeWhile (fun x => x ≠ ']')).length ≠ 0 ∧
      ((c ++ ']' :: v).takeWhile (fun x => x ≠ ']')).length <
        (c ++ ']' :: v).length := by
    rw [hcontent]
    exact ⟨h1, h2⟩
  simp only [firstBracketMatch, if_pos (show ('[' : Char) = '[' from rfl),
    if_pos hcond]
  rw [hcontent]
  simp

/-- The regex group is never empty. -/
theorem firstBracketMatch_some_ne_nil : ∀ {l c : List Char},
    firstBracketMatch l = some c → c ≠ [] := by
  intro l
  induction l with
  | nil => intro c h; simp [firstBracketMatch] at h
  | cons a rest ih =>
    intro c h
    by_cases ha : a = '['
    · simp only [firstBracketMatch, if_pos ha] at h
      by_cases hcond : (rest.takeWhile (fun x => x ≠ ']')).length ≠ 0 ∧
          (rest.takeWhile (fun x => x ≠ ']')).length < rest.length
      · rw [if_pos hcond] at h
        have hce := Option.some.inj h
        subst hce
        exact fun hnil => hcond.1 (by rw [hnil]; rfl)
      · rw [if_neg hcond] at h
        exact ih h
    · simp only [firstBracketMatch, if_neg ha] at h
      exact ih h

/-- A stripped-to-empty string was entirely whitespace. -/
theorem pyStripL_eq_nil {l : List Char} (h : pyStripL l = []) :
    ∀ x ∈ l, pyIsSpace x = true := by
  intro x hx
  unfold pyStripL at h
  have h1 : (l.dropWhile pyIsSpace).reverse.dropWhile pyIsSpace = [] := by
    simpa using h
  have h2 : ∀ y ∈ (l.dropWhile pyIsSpace).reverse, pyIsSpace y = true :=
    List.dropWhile_eq_nil_iff.mp h1
  have hsplit : l.takeWhile pyIsSpace ++ l.dropWhile pyIsSpace = l :=
    List.takeWhile_append_dropWhile pyIsSpace l
  rw [← hsplit] at hx
  rcases List.mem_append.mp hx with h3 | h3
  · exact List.mem_takeWhile_imp h3
  · exact h2 x (List.mem_reverse.mpr h3)

/-- The negative form of containsL_iff. -/
theorem containsL_eq_false_iff (w l : List Char) :
    containsL w l = false ↔ ¬ w <:+: l := by
  rw [← containsL_iff]
  cases containsL w l <;> simp

/-! ## Claim C3: status extraction -/

/-- C3: _extract_status returns DISPOSED/CLOSED/PENDING (in that priority
order) when the corresponding bracketed label occurs anywhere in the text,
otherwise the stripped content of the first complete bracketed group, and
ACTIVE when the text contains no brackets. -/
theorem extract_status_spec (s : String) :
    ("[DISPOSED]".toList <:+: s.toList → extract_status s = "DISPOSED") ∧
    (¬ "[DISPOSED]".toList <:+: s.toList → "[CLOSED]".toList <:+: s.toList →
      extract_status s = "CLOSED") ∧
    (¬ "[DISPOSED]".toList <:+: s.toList → ¬ "[CLOSED]".toList <:+: s.toList →
      "[PENDING]".toList <:+: s.toList → extract_status s = "PENDING") ∧
    (∀ u c v : List Char, ¬ "[DISPOSED]".toList <:+: s.toList →
      ¬ "[CLOSED]".toList <:+: s.toList → ¬ "[PENDING]".toList <:+: s.toList →
      s.toList = u ++ '[' :: (c ++ ']' :: v) → '[' ∉ u → c ≠ [] → ']' ∉ c →
      extract_status s = String.mk (pyStripL c)) ∧
    (('[' ∉ s.toList ∨ ']' ∉ s.toList) → extract_status s = "ACTIVE") := by
  refine ⟨?_, ?_, ?_, ?_, ?_⟩
  · intro h
    unfold extract_status
    rw [if_pos ((containsL_iff _ _).mpr h)]
  · intro hd h
    unfold extract_status
    rw [if_neg (fun hx => hd ((containsL_iff _ _).mp hx)),
      if_pos ((containsL_iff _ _).mpr h)]
  · intro hd hc h
    unfold extract_status
    rw [if_neg (fun hx => hd ((containsL_iff _ _).mp hx)),
      if_neg (fun hx => hc ((containsL_iff _ _).mp hx)),
      if_pos ((containsL_iff _ _).mpr h)]
  · intro u c v hd hcl hp hdecomp hu hc hcc
    have hopen : containsL "[".toList s.toList = true := by
      apply (containsL_iff _ _).mpr
      exact ⟨u, c ++ ']' :: v, by rw [hdecomp]; simp⟩
    have hclose : containsL "]".toList s.toList = true := by
      apply (containsL_iff _ _).mpr
      refine ⟨u ++ '[' :: c, v, ?_⟩
      rw [hdecomp]
      simp
    have hm : firstBracketMatch s.toList = some c := by
      rw [hdecomp]
      exact firstBracketMatch_decomp hu hc hcc
    unfold extract_status
    rw [if_neg (fun hx => hd ((containsL_iff _ _).mp hx)),
      if_neg (fun hx => hcl ((containsL_iff _ _).mp hx)),
      if_neg (fun hx => hp ((containsL_iff _ _).mp hx)),
      if_pos (by rw [hopen, hclose]; exact rfl), hm]
  · intro hmiss
    rcases hmiss with hmiss | hmiss
    · have hD := containsL_eq_false_of_mem
        (show '[' ∈ "[DISPOSED]".toList by decide) hmiss
      have hC := containsL_eq_false_of_mem
        (show '[' ∈ "[CLOSED]".toList by decide) hmiss
      have hP := containsL_eq_false_of_mem
        (show '[' ∈ "[PENDING]".toList by decide) hmiss
      have hO := containsL_eq_false_of_mem
        (show '[' ∈ "[".toList by decide) hmiss
      unfold extract_status
      rw [if_neg (fun hx => Bool.false_ne_true (hD.symm.trans hx)),
        if_neg (fun hx => Bool.false_ne_true (hC.symm.trans hx)),
        if_neg (fun hx => Bool.false_ne_true (hP.symm.trans hx)),
        if_neg (by rw [hO]; simp)]
    · have hD := containsL_eq_false_of_mem
        (show ']' ∈ "[DISPOSED]".toList by decide) hmiss
      have hC := containsL_eq_false_of_mem
        (show ']' ∈ "[CLOSED]".toList by decide) hmiss
      have hP := containsL_eq_false_of_mem
        (show ']' ∈ "[PENDING]".toList by decide) hmiss
      have hO := containsL_eq_false_of_mem
        (show ']' ∈ "]".toList by decide) hmiss
      unfold extract_status
      rw [if_neg (fun hx => Bool.false_ne_true (hD.symm.trans hx)),
        if_neg (fun hx => Bool.false_ne_true (hC.symm.trans hx)),
        if_neg (fun hx => Bool.false_ne_true (hP.symm.trans hx)),
        if_neg (by rw [hO]; simp)]

/-- C3 witness: concrete inputs exercising every hypothesis of
extract_status_spec. -/
theorem extract_status_spec_witness :
    extract_status "Case 123 [FOO] listed" = "FOO" ∧
    extract_status "Case [DISPOSED] done" = "DISPOSED" ∧
    extract_status "no brackets here" = "ACTIVE" := by
  refine ⟨?_, ?_, ?_⟩
  · have h := (extract_status_spec "Case 123 [FOO] listed").2.2.2.1
      "Case 123 ".toList "FOO".toList " listed".toList
      (by decide) (by decide) (by decide) (by decide) (by decide) (by decide)
      (by decide)
    exact h.trans (by decide)
  · exact (extract_status_spec "Case [DISPOSED] done").1 (by decide)
  · exact (extract_status_spec "no brackets here").2.2.2.2 (Or.inl (by decide))

/-! ## Claim C10: totality and bracket fall-through of _extract_status -/

/-- C10 counterexample: on "[ ]" the first bracketed group is all
whitespace, so _extract_status returns the empty string, refuting the
claim that it returns a non-empty string for every input. -/
theorem extract_status_empty_counterexample :
    extract_status "[ ]" = "" ∧ ¬ (∀ s : String, extract_status s ≠ "") := by
  refine ⟨by decide, fun h => h "[ ]" (by decide)⟩

/-- C10 (amended): _extract_status is total; on any text whose '[' all come
after whose ']' (so no complete bracketed group exists) it returns ACTIVE;
and its result is empty only when the first bracketed group consists
entirely of whitespace. -/
theorem extract_status_total_fallthrough :
    (∀ u v : List Char, '[' ∉ u → ']' ∉ v →
      extract_status (String.mk (u ++ v)) = "ACTIVE") ∧
    (∀ s : String, extract_status s = "" →
      ∃ c, firstBracketMatch s.toList = some c ∧ c ≠ [] ∧
        ∀ x ∈ c, pyIsSpace x = true) := by
  constructor
  · intro u v hu hv
    have hD : containsL "[DISPOSED]".toList (u ++ v) = false :=
      containsL_bracket_split (by decide) (by decide) hu hv
    have hC : containsL "[CLOSED]".toList (u ++ v) = false :=
      containsL_bracket_split (by decide) (by decide) hu hv
    have hP : containsL "[PENDING]".toList (u ++ v) = false :=
      containsL_bracket_split (by decide) (by decide) hu hv
    have hM : firstBracketMatch (u ++ v) = none := by
      rw [firstBracketMatch_append hu v]
      exact firstBracketMatch_of_no_close hv
    have hl : (String.mk (u ++ v)).toList = u ++ v := rfl
    simp only [extract_status, hl, hD, hC, hP, hM]
    cases hcond : (containsL "[".toList (u ++ v) &&
        containsL "]".toList (u ++ v)) <;> simp [hcond]
  · intro s h
    simp only [extract_status] at h
    split at h
    · exact absurd h (by decide)
    · split at h
      · exact absurd h (by decide)
      · split at h
        · exact absurd h (by decide)
        · split at h
          · cases hm : firstBracketMatch s.toList with
            | none => rw [hm] at h; exact absurd h (by decide)
            | some c =>
              rw [hm] at h
              have h2 : String.mk (pyStripL c) = "" := h
              have hstrip : pyStripL c = [] := by
                have h3 := congrArg String.data h2
                simpa using h3
              exact ⟨c, rfl, firstBracketMatch_some_ne_nil hm,
                pyStripL_eq_nil hstrip⟩
          · exact absurd h (by decide)

/-- C10 witness: a text with both brackets present but every ']' before
every '[' falls through to ACTIVE. -/
theorem extract_status_total_fallthrough_witness :
    extract_status "]abcd[" = "ACTIVE" :=
  extract_status_total_fallthrough.1 "]ab".toList "cd[".toList
    (by decide) (by decide)

/-! ## Claim C4: court-detail extraction -/

/-- C4 counterexample: with every marker in its upper-case variant, the
next-date field is not cut at the following marker — the mixed-case
"Last Date:" is the only terminator the code splits on — refuting the
claim that each field is the substring between consecutive markers. -/
theorem extract_court_details_counterexample :
    extract_court_details "NEXT DATE: 1LAST DATE: 2COURT NO: 3" =
      ("1LAST DATE: 2COURT NO: 3", "2", "3") ∧
    (extract_court_details "NEXT DATE: 1LAST DATE: 2COURT NO: 3").1 ≠ "1" := by
  exact ⟨by decide, by decide⟩

/-- C4 (amended): the claimed concrete vector holds, missing markers yield
the per-field placeholders, but each field is terminated only by one fixed
case variant of the following marker ("Last Date:" for next-date,
"COURT NO:" for last-date), not by any consecutive marker. -/
theorem extract_court_details_spec :
    (extract_court_details "NEXT DATE: 12.05.2024Last Date: 01.03.2024COURT NO: 5" =
      ("12.05.2024", "01.03.2024", "5")) ∧
    (extract_court_details "NEXT DATE: 1LAST DATE: 2COURT NO: 3" =
      ("1LAST DATE: 2COURT NO: 3", "2", "3")) ∧
    (∀ t : String, ¬ "NEXT DATE:".toList <:+: t.toList →
      ¬ "Next Date:".toList <:+: t.toList →
      (extract_court_details t).1 = "Not Scheduled") ∧
    (∀ t : String, ¬ "Last Date:".toList <:+: t.toList →
      ¬ "LAST DATE:".toList <:+: t.toList →
      (extract_court_details t).2.1 = "Not Available") ∧
    (∀ t : String, ¬ "COURT NO:".toList <:+: t.toList →
      ¬ "Court No:".toList <:+: t.toList →
      (extract_court_details t).2.2 = "Not Assigned") := by
  refine ⟨by decide, by decide, ?_, ?_, ?_⟩
  · intro t h1 h2
    unfold extract_court_details
    dsimp only
    rw [if_neg (fun hx => h1 ((containsL_iff _ _).mp hx)),
      if_neg (fun hx => h2 ((containsL_iff _ _).mp hx))]
    rfl
  · intro t h1 h2
    unfold extract_court_details
    dsimp only
    rw [if_neg (fun hx => h1 ((containsL_iff _ _).mp hx)),
      if_neg (fun hx => h2 ((containsL_iff _ _).mp hx))]
    rfl
  · intro t h1 h2
    unfold extract_court_details
    dsimp only
    rw [if_neg (fun hx => h1 ((containsL_iff _ _).mp hx)),
      if_neg (fun hx => h2 ((containsL_iff _ _).mp hx))]
    rfl

/-- C4 witness: a marker-free text receives all three placeholders. -/
theorem extract_court_details_spec_witness :
    extract_court_details "case adjourned sine die" =
      ("Not Scheduled", "Not Available", "Not Assigned") := by
  have h1 := extract_court_details_spec.2.2.1 "case adjourned sine die"
    (by decide) (by decide)
  have h2 := extract_court_details_spec.2.2.2.1 "case adjourned sine die"
    (by decide) (by decide)
  have h3 := extract_court_details_spec.2.2.2.2 "case adjourned sine die"
    (by decide) (by decide)
  exact Prod.ext h1 (Prod.ext h2 h3)

/-! ## Claims C5 and C8: orders extraction and link resolution -/

/-- ordersGo distributes over append, with the enumerate index advancing
over every row of the left part. -/
theorem ordersGo_append (join : String → String → String) :
    ∀ (a : List (List Cell)) (i : Nat) (b : List (List Cell)),
    ordersGo join i (a ++ b) =
      ordersGo join i a ++ ordersGo join (i + a.length) b := by
  intro a
  induction a with
  | nil =>
    intro i b
    simp [ordersGo]
  | cons r a2 ih =>
    intro i b
    have hlen : i + 1 + a2.length = i + (r :: a2).length := by
      rw [List.length_cons]
      omega
    simp only [List.cons_append, ordersGo]
    have ih2 : ordersGo join (i + 1) (List.append a2 b) =
        ordersGo join (i + 1) a2 ++ ordersGo join (i + 1 + a2.length) b :=
      ih (i + 1) b
    by_cases h : 2 ≤ r.length
    · rw [if_pos h, if_pos h]
      cases hp : parse_order_row join r i with
      | none => rw [ih2, hlen]
      | some od => rw [ih2, hlen]; rfl
    · rw [if_neg h, if_neg h, ih2, hlen]

/-- Any href returned by the _extract_orders_link loop comes from an anchor
of the cell, contains one of the keywords, and is the original href when
absolute, else the joined one. -/
theorem orderLinkLoop_some {join : String → String → String} :
    ∀ {anchors : List Anchor} {r : String}, orderLinkLoop join anchors = some r →
    ∃ a ∈ anchors, ∃ h, a.href = some h ∧
      (containsL "order".toList (pyLower h).toList ||
       containsL "status".toList (pyLower h).toList ||
       containsL "detail".toList (pyLower h).toList) = true ∧
      r = if pyStartsWith h "http" then h else join BASE_URL h := by
  intro anchors
  induction anchors with
  | nil =>
    intro r h
    simp [orderLinkLoop] at h
  | cons a rest ih =>
    intro r h
    cases ha : a.href with
    | none =>
      simp only [orderLinkLoop, ha] at h
      obtain ⟨a2, hmem, h2, hhref, hkw, hr⟩ := ih h
      exact ⟨a2, List.mem_cons_of_mem a hmem, h2, hhref, hkw, hr⟩
    | some href =>
      simp only [orderLinkLoop, ha] at h
      by_cases hk : (containsL "order".toList (pyLower href).toList ||
          containsL "status".toList (pyLower href).toList ||
          containsL "detail".toList (pyLower href).toList) = true
      · rw [if_pos hk] at h
        refine ⟨a, List.mem_cons_self a rest, href, ha, hk, ?_⟩
        by_cases hs : pyStartsWith href "http" = true
        · rw [if_pos hs] at h
          rw [if_pos hs]
          exact (Option.some.inj h).symm
        · rw [if_neg hs] at h
          rw [if_neg hs]
          exact (Option.some.inj h).symm
      · rw [if_neg hk] at h
        obtain ⟨a2, hmem, h2, hhref, hkw, hr⟩ := ih h
        exact ⟨a2, List.mem_cons_of_mem a hmem, h2, hhref, hkw, hr⟩

/-- C5: one unparseable row among many is skipped without affecting the
other rows; a row without a usable link still yields a record (with link
None, placeholder description and the row's date); navigation failure or a
missing table yields the empty list rather than an error. -/
theorem extract_orders_partial :
    (∀ (join : String → String → String) (i : Nat) (a b : List (List Cell))
        (bad : List Cell), bad.length < 2 →
      ordersGo join i (a ++ bad :: b) =
        ordersGo join i a ++ ordersGo join (i + a.length + 1) b) ∧
    (∀ (join : String → String → String) (c0 c1 c2 : Cell)
        (rest : List Cell) (i : Nat),
      findAnchorWithHref c1 = none →
      parse_order_row join (c0 :: c1 :: c2 :: rest) i =
        some ⟨i + 1, c2.text, "Not Available", none⟩) ∧
    (∀ (join : String → String → String) (page : OrdersPage),
      extract_orders_data join false page = []) ∧
    (∀ (join : String → String → String) (fetchOk : Bool),
      extract_orders_data join fetchOk ⟨none⟩ = []) := by
  refine ⟨?_, ?_, ?_, ?_⟩
  · intro join i a b bad hbad
    rw [ordersGo_append join a i (bad :: b)]
    have h2 : ordersGo join (i + a.length) (bad :: b) =
        ordersGo join (i + a.length + 1) b := by
      simp only [ordersGo]
      rw [if_neg (by omega)]
    rw [h2]
  · intro join c0 c1 c2 rest i hfind
    simp only [parse_order_row, mkOrderRec, hfind]
  · intro join page
    rfl
  · intro join fetchOk
    cases fetchOk <;> rfl

/-- String concatenation as a concrete stand-in for urljoin in witnesses
and counterexamples. -/
def joinConcat (b r : String) : String := b ++ r

/-- A well-formed orders row with the given date text and no anchors. -/
def goodRow (d : String) : List Cell := [⟨"1", []⟩, ⟨"info", []⟩, ⟨d, []⟩]

/-- C5 witness: an empty (hence unparseable) row between two good rows on
each side is skipped while the four good rows are still parsed, and an
anchor-less row parses to a record with link None. -/
theorem extract_orders_partial_witness :
    ordersGo joinConcat 0
        ([goodRow "d1", goodRow "d2"] ++ [] :: [goodRow "d4", goodRow "d5"]) =
      ordersGo joinConcat 0 [goodRow "d1", goodRow "d2"] ++
        ordersGo joinConcat 3 [goodRow "d4", goodRow "d5"] ∧
    parse_order_row joinConcat (goodRow "d1") 0 =
      some ⟨1, "d1", "Not Available", none⟩ := by
  constructor
  · exact extract_orders_partial.1 joinConcat 0 [goodRow "d1", goodRow "d2"]
      [goodRow "d4", goodRow "d5"] [] (by decide)
  · exact extract_orders_partial.2.1 joinConcat ⟨"1", []⟩ ⟨"info", []⟩
      ⟨"d1", []⟩ [] 0 rfl

/-- C8 counterexample: _parse_order_row selects an anchor whose href is the
empty string and keeps "" as the document link instead of resolving it
against the base URL (urljoin would return the base URL itself). -/
theorem orders_link_counterexample :
    parse_order_row joinConcat
        [⟨"1", []⟩, ⟨"desc", [⟨some "", "order details"⟩]⟩, ⟨"01.01.2024", []⟩] 0 =
      some ⟨1, "01.01.2024", "order details", some ""⟩ ∧
    (some "" : Option String) ≠ some (joinConcat BASE_URL "") ∧
    pyStartsWith "" "http" = false := by
  exact ⟨rfl, by decide, rfl⟩

/-- C8 (amended): an href is selected by _extract_orders_link only if it
contains one of the keywords order/status/detail case-insensitively; every
selected href that starts with "http" passes through unchanged and every
other selected href is joined against the base URL; _parse_order_row
resolves a selected non-empty relative href the same way but passes an
empty href through as "". -/
theorem orders_link_resolution :
    (∀ (join : String → String → String) (c : Cell) (r : String),
      extract_orders_link join (some c) = some r →
      ∃ a ∈ c.anchors, ∃ h, a.href = some h ∧
        (containsL "order".toList (pyLower h).toList ||
         containsL "status".toList (pyLower h).toList ||
         containsL "detail".toList (pyLower h).toList) = true ∧
        r = if pyStartsWith h "http" then h else join BASE_URL h) ∧
    (∀ (join : String → String → String) (c0 c1 c2 : Cell) (rest : List Cell)
        (i : Nat) (a : Anchor) (h : String),
      findAnchorWithHref c1 = some a → a.href = some h → h ≠ "" →
      parse_order_row join (c0 :: c1 :: c2 :: rest) i =
        some ⟨i + 1, c2.text, a.text,
          some (if pyStartsWith h "http" then h else join BASE_URL h)⟩) ∧
    (∀ (join : String → String → String) (c0 c1 c2 : Cell) (rest : List Cell)
        (i : Nat) (a : Anchor),
      findAnchorWithHref c1 = some a → a.href = some "" →
      parse_order_row join (c0 :: c1 :: c2 :: rest) i =
        some ⟨i + 1, c2.text, a.text, some ""⟩) := by
  refine ⟨?_, ?_, ?_⟩
  · intro join c r h
    exact orderLinkLoop_some h
  · intro join c0 c1 c2 rest i a h hfind hhref hne
    simp only [parse_order_row, mkOrderRec, hfind, hhref, Option.getD_some]
    by_cases hs : pyStartsWith h "http" = true
    · rw [if_neg (fun hcontra => hcontra.2 hs), if_pos hs]
    · rw [if_pos ⟨hne, hs⟩, if_neg hs]
  · intro join c0 c1 c2 rest i a hfind hhref
    simp only [parse_order_row, mkOrderRec, hfind, hhref, Option.getD_some]
    rw [if_neg (fun hcontra => hcontra.1 rfl)]

/-- C8 witness: a relative keyword-bearing href is joined against the base
URL by _parse_order_row. -/
theorem orders_link_resolution_witness :
    parse_order_row joinConcat
        [⟨"1", []⟩, ⟨"x", [⟨some "app/orders/1", "view order"⟩]⟩,
          ⟨"02.01.2024", []⟩] 0 =
      some ⟨1, "02.01.2024", "view order",
        some (joinConcat BASE_URL "app/orders/1")⟩ := by
  have h := orders_link_resolution.2.1 joinConcat ⟨"1", []⟩
    ⟨"x", [⟨some "app/orders/1", "view order"⟩]⟩ ⟨"02.01.2024", []⟩ [] 0
    ⟨some "app/orders/1", "view order"⟩ "app/orders/1" rfl rfl (by decide)
  exact h.trans (by decide)

/-! ## Helper lemmas about _cleanup -/

/-- Cleaning up with a held driver always resets every reference, whether
or not quit() raises. -/
theorem cleanup_some (d : DriverH) (f e : Bool) :
    cleanup ⟨some d, f, e⟩ = (⟨none, false, false⟩, true) := by
  cases d with
  | mk q => cases q <;> rfl

/-- Cleaning up without a held driver is a no-op. -/
theorem cleanup_none (f e : Bool) :
    cleanup ⟨none, f, e⟩ = (⟨none, f, e⟩, false) := rfl

/-- After cleanup the driver reference is always gone. -/
theorem cleanup_driver_none (s : ScraperState) :
    ((cleanup s).1).driver = none := by
  cases s with
  | mk d f e =>
    cases d with
    | none => rfl
    | some dr =>
      cases dr with
      | mk q => cases q <;> rfl

/-! ## Claim C9: progress-callback irrelevance -/

/-- C9: two runs of search_case_details differing only in the progress
callback (one present with any result type, one absent) produce the same
result, the same persisted records, the same cleanup behaviour and the
same attempted stages. -/
theorem search_callback_irrelevant {α β : Type} (ct cn : String) (fy : Nat)
    (env : ScrapeEnv) (f : String → Nat → α) :
    (search_case_details ct cn fy env (some f)).result =
      (search_case_details ct cn fy env (none : Option (String → Nat → β))).result ∧
    (search_case_details ct cn fy env (some f)).saved =
      (search_case_details ct cn fy env (none : Option (String → Nat → β))).saved ∧
    (search_case_details ct cn fy env (some f)).cleanupCalls =
      (search_case_details ct cn fy env (none : Option (String → Nat → β))).cleanupCalls ∧
    (search_case_details ct cn fy env (some f)).finalState =
      (search_case_details ct cn fy env (none : Option (String → Nat → β))).finalState ∧
    (search_case_details ct cn fy env (some f)).stages =
      (search_case_details ct cn fy env (none : Option (String → Nat → β))).stages := by
  cases hse : env.setupErr <;>
    cases hne : env.navErr <;>
    cases hf : fill_search_form env <;>
    cases hc : env.captchaOk <;>
    cases hs : env.submitOk <;>
    cases hex : env.extractResult <;>
    simp only [search_case_details, hse, hne, hf, hc, hs, hex, emit] <;>
    (try simp) <;>
    (try (split <;> simp_all))

/-! ## Claim C2: cleanup discipline -/

/-- C2: every invocation of search_case_details runs _cleanup exactly once
and ends with the driver reference reset; a second _cleanup call performs
no quit and leaves the state unchanged; and _cleanup returns normally
(resetting all references) even when the driver's quit raises. -/
theorem cleanup_discipline :
    (∀ (α : Type) (ct cn : String) (fy : Nat) (env : ScrapeEnv)
        (cb : Option (String → Nat → α)),
      (search_case_details ct cn fy env cb).cleanupCalls = 1 ∧
      (search_case_details ct cn fy env cb).finalState.driver = none) ∧
    (∀ s : ScraperState, cleanup ((cleanup s).1) = ((cleanup s).1, false)) ∧
    (∀ b1 b2 : Bool, cleanup ⟨some ⟨true⟩, b1, b2⟩ = (⟨none, false, false⟩, true)) := by
  refine ⟨?_, ?_, ?_⟩
  · intro α ct cn fy env cb
    cases hse : env.setupErr <;>
      cases hne : env.navErr <;>
      cases hf : fill_search_form env <;>
      cases hc : env.captchaOk <;>
      cases hs : env.submitOk <;>
      cases hex : env.extractResult <;>
      simp only [search_case_details, hse, hne, hf, hc, hs, hex, emit] <;>
      (try simp [cleanup_driver_none]) <;>
      (try (split <;> simp_all [cleanup_driver_none]))
  · intro s
    cases s with
    | mk d f e =>
      cases d with
      | none => rfl
      | some dr =>
        cases dr with
        | mk q => cases q <;> rfl
  · intro b1 b2
    rfl

/-! ## Claim C1: persistence discipline -/

/-- An environment in which every browser step succeeds but no matching
case row exists. -/
def envNotFound : ScrapeEnv :=
  { setupErr := none, navErr := none, fillCaseTypeOk := true,
    fillCaseNumberOk := true, fillFilingYearOk := true, captchaOk := true,
    submitOk := true, extractResult := none, ordersResult := [],
    quitFails := false }

/-- C1 counterexample: the "no case found" outcome returns None from inside
the try block, so no attempt record at all is persisted — refuting the
claim that every invocation persists exactly one record. -/
theorem no_case_found_not_persisted :
    (search_case_details "W.P.(C)" "123" 2024 envNotFound
        (none : Option (String → Nat → Unit))).result = .ok none ∧
    (search_case_details "W.P.(C)" "123" 2024 envNotFound
        (none : Option (String → Nat → Unit))).saved = [] :=
  ⟨rfl, rfl⟩

/-- C1 (amended): exactly one record is persisted on the success path (the
returned case dictionary) and on every raised-error path (a failure record
carrying the error message), but the "no case found" None return persists
nothing. -/
theorem save_record_discipline {α : Type} (ct cn : String) (fy : Nat)
    (env : ScrapeEnv) (cb : Option (String → Nat → α)) :
    ((search_case_details ct cn fy env cb).saved.length =
      match (search_case_details ct cn fy env cb).result with
      | .ok none => 0
      | _ => 1) ∧
    (∀ m, (search_case_details ct cn fy env cb).result = .error m →
      (search_case_details ct cn fy env cb).saved =
        [.failure (composedCaseNumber ct cn fy) ct fy m]) ∧
    (∀ cd, (search_case_details ct cn fy env cb).result = .ok (some cd) →
      (search_case_details ct cn fy env cb).saved = [.success cd]) ∧
    ((search_case_details ct cn fy env cb).result = .ok none →
      (search_case_details ct cn fy env cb).saved = []) := by
  cases hse : env.setupErr <;>
    cases hne : env.navErr <;>
    cases hf : fill_search_form env <;>
    cases hc : env.captchaOk <;>
    cases hs : env.submitOk <;>
    cases hex : env.extractResult <;>
    simp only [search_case_details, hse, hne, hf, hc, hs, hex, emit] <;>
    (try simp) <;>
    (try (split <;> simp_all))

/-- A case dictionary as the extractor would produce it. -/
def sampleCase : CaseData :=
  { case_number := "W.P.(C) 123/2024", case_type := "W.P.(C)",
    filing_year := "2024", status := "ACTIVE", parties := "A vs B",
    next_date := "Not Scheduled", last_date := "Not Available",
    court_no := "5", orders_link := none, orders := none }

/-- An environment in which the pipeline succeeds end to end. -/
def envFound : ScrapeEnv :=
  { envNotFound with extractResult := some sampleCase }

/-- C1 witness: the success path persists exactly the returned dictionary,
and the not-found path persists nothing. -/
theorem save_record_discipline_witness :
    (search_case_details "W.P.(C)" "123" 2024 envFound
        (none : Option (String → Nat → Unit))).saved = [.success sampleCase] ∧
    (search_case_details "W.P.(C)" "123" 2024 envNotFound
        (none : Option (String → Nat → Unit))).saved = [] := by
  constructor
  · exact (save_record_discipline "W.P.(C)" "123" 2024 envFound
      none).2.2.1 sampleCase rfl
  · exact (save_record_discipline "W.P.(C)" "123" 2024 envNotFound
      none).2.2.2 rfl

/-! ## Claim C7: stage failure classification -/

/-- C7: each stage failure aborts the pipeline with its own fixed message
and later stages are never attempted; the surfaced messages keep the three
user-visible outcomes (no case found, verification failure, other
failures) distinguishable, exactly as app.perform_case_search classifies
them. -/
theorem stage_failure_classification {α : Type} (ct cn : String) (fy : Nat)
    (env : ScrapeEnv) (cb : Option (String → Nat → α))
    (hse : env.setupErr = none) (hne : env.navErr = none) :
    (fill_search_form env = false →
      (search_case_details ct cn fy env cb).result =
        .error "Unable to fill search form" ∧
      (search_case_details ct cn fy env cb).stages.captcha = false ∧
      (search_case_details ct cn fy env cb).stages.submit = false ∧
      (search_case_details ct cn fy env cb).stages.extract = false ∧
      errorGuidance "Unable to fill search form" = .generic) ∧
    (fill_search_form env = true → env.captchaOk = false →
      (search_case_details ct cn fy env cb).result =
        .error "Security verification failed - please try again" ∧
      (search_case_details ct cn fy env cb).stages.submit = false ∧
      (search_case_details ct cn fy env cb).stages.extract = false ∧
      errorGuidance "Security verification failed - please try again" =
        .securityRetry) ∧
    (fill_search_form env = true → env.captchaOk = true → env.submitOk = false →
      (search_case_details ct cn fy env cb).result =
        .error "Search submission failed" ∧
      (search_case_details ct cn fy env cb).stages.extract = false ∧
      errorGuidance "Search submission failed" = .generic) ∧
    (fill_search_form env = true → env.captchaOk = true → env.submitOk = true →
      env.extractResult = none →
      (perform_case_search ct cn fy env).display = .noCaseFound) ∧
    (fill_search_form env = false →
      ∃ m, (perform_case_search ct cn fy env).display = .searchFailed m .generic) ∧
    (fill_search_form env = true → env.captchaOk = false →
      (perform_case_search ct cn fy env).display =
        .searchFailed "Security verification failed - please try again"
          .securityRetry) ∧
    ("Unable to fill search form" ≠
        "Security verification failed - please try again" ∧
      "Unable to fill search form" ≠ "Search submission failed" ∧
      "Security verification failed - please try again" ≠
        "Search submission failed") := by
  have hG1 : errorGuidance "Unable to fill search form" = .generic := by decide
  have hG2 : errorGuidance "Security verification failed - please try again" =
      .securityRetry := by decide
  have hG3 : errorGuidance "Search submission failed" = .generic := by decide
  refine ⟨?_, ?_, ?_, ?_, ?_, ?_, by decide⟩
  · intro hf
    simp [search_case_details, hse, hne, hf, emit, pyExcMsg, hG1]
  · intro hf hc
    simp [search_case_details, hse, hne, hf, hc, emit, pyExcMsg, hG2]
  · intro hf hc hs
    simp [search_case_details, hse, hne, hf, hc, hs, emit, pyExcMsg, hG3]
  · intro hf hc hs hex
    simp [perform_case_search, search_case_details, hse, hne, hf, hc, hs, hex,
      emit, pyExcMsg]
  · intro hf
    refine ⟨"Unable to fill search form", ?_⟩
    simp [perform_case_search, search_case_details, hse, hne, hf, emit,
      pyExcMsg, hG1]
  · intro hf hc
    simp [perform_case_search, search_case_details, hse, hne, hf, hc, emit,
      pyExcMsg, hG2]

/-- An environment whose case-number fill step fails. -/
def envFillFail : ScrapeEnv :=
  { envNotFound with fillCaseNumberOk := false }

/-- An environment whose verification step fails. -/
def envCaptchaFail : ScrapeEnv :=
  { envNotFound with captchaOk := false }

/-- C7 witness: concrete environments for the fill-failure and
verification-failure conjuncts. -/
theorem stage_failure_classification_witness :
    (search_case_details "W.P.(C)" "1" 2024 envFillFail
        (none : Option (String → Nat → Unit))).result =
      .error "Unable to fill search form" ∧
    (perform_case_search "W.P.(C)" "1" 2024 envCaptchaFail).display =
      .searchFailed "Security verification failed - please try again"
        .securityRetry := by
  constructor
  · exact ((stage_failure_classification "W.P.(C)" "1" 2024 envFillFail none
      rfl rfl).1 rfl).1
  · exact (stage_failure_classification "W.P.(C)" "1" 2024 envCaptchaFail
      (none : Option (String → Nat → Unit)) rfl rfl).2.2.2.2.2.1 rfl rfl

/-! ## Claim C6: entry-point validation -/

/-- C6: a submission whose case number is empty or contains a non-digit is
rejected by render_search_tab before any scraper or pipeline work: the
validation message is shown, nothing is persisted and no browser session
is created. -/
theorem invalid_case_number_rejected (ct cn : String) (fy : Nat)
    (env : ScrapeEnv)
    (h : cn = "" ∨ ∃ c ∈ cn.toList, c.isDigit = false) :
    (render_search_tab_submit ct cn fy env).rejectedMsg.isSome = true ∧
    (render_search_tab_submit ct cn fy env).saved = [] ∧
    (render_search_tab_submit ct cn fy env).scrapersCreated = 0 := by
  rcases h with h | ⟨c, hc, hcd⟩
  · subst h
    exact ⟨rfl, rfl, rfl⟩
  · by_cases hs : pyStrip cn = ""
    · unfold render_search_tab_submit
      rw [if_pos hs]
      exact ⟨rfl, rfl, rfl⟩
    · have hall : cn.toList.all Char.isDigit = false := by
        cases hall2 : cn.toList.all Char.isDigit
        · rfl
        · exact absurd (hcd.symm.trans (List.all_eq_true.mp hall2 c hc))
            Bool.false_ne_true
      have hd : pyIsDigit cn = false := by
        unfold pyIsDigit
        rw [hall, Bool.and_false]
      unfold render_search_tab_submit
      rw [if_neg hs, if_pos hd]
      exact ⟨rfl, rfl, rfl⟩

/-- C6 witness: the submission "12a" is rejected with no persisted record
and no scraper. -/
theorem invalid_case_number_rejected_witness :
    (render_search_tab_submit "W.P.(C)" "12a" 2024 envNotFound).saved = [] ∧
    (render_search_tab_submit "W.P.(C)" "12a" 2024 envNotFound).scrapersCreated
      = 0 := by
  have h := invalid_case_number_rejected "W.P.(C)" "12a" 2024 envNotFound
    (Or.inr ⟨'a', by decide, by decide⟩)
  exact ⟨h.2.1, h.2.2⟩
